import Mathlib

/-!
# ReplyBolt license server — verification of the core lifecycle

Shallow embedding of the license-server core (`server.js`): the license
store, the stats aggregate, and the six lifecycle operations (webhook
issuance, webhook cancellation, verification, manual issuance, revocation,
deletion).  Transport concerns (HTTP routing, auth, email, JSON parsing)
are outside the embedding; each handler is modelled as a pure function of
its normalized request fields, the generated license key, the current
date, and the server state, returning a response together with the next
state.  JavaScript `Date` values are modelled by an absolute month index
(`year*12 + month`) paired with the millisecond offset from the start of
that month; `setMonth`/`setFullYear` keep day-of-month and time of day,
i.e. keep the offset, and overflowing days roll into later months exactly
as the epoch-milliseconds formula computes, so date comparison is
comparison of the modelled epoch milliseconds.  JavaScript numbers used
for money are modelled as rationals; stats counters as integers (the code
guards them with `Math.max(0, ·)`).  Optional / possibly-absent request
and record fields are modelled as `Option`, with JS truthiness tests made
explicit (`none` and the empty string are falsy).
-/

namespace ReplyBolt

/-! ## Calendar model -/

def msPerDay : ℕ := 86400000

def isLeap (y : ℕ) : Bool :=
  y % 4 = 0 && (y % 100 ≠ 0 || y % 400 = 0)

/-- Length in days of absolute month `am` (months counted from year 0,
month 0 = January). -/
def daysInAbsMonth (am : ℕ) : ℕ :=
  if am % 12 = 1 then (if isLeap (am / 12) then 29 else 28)
  else if am % 12 = 3 ∨ am % 12 = 5 ∨ am % 12 = 8 ∨ am % 12 = 10 then 30
  else 31

/-- Day number (from the model origin) of the first day of absolute
month `am`. -/
def monthStartDay : ℕ → ℕ
  | 0 => 0
  | am + 1 => monthStartDay am + daysInAbsMonth am

/-- A JS `Date`: absolute month together with millisecond offset from the
start of that month. -/
structure Date where
  am : ℕ
  rem : ℕ
deriving DecidableEq

/-- Epoch milliseconds of a date (JS `MakeDay` semantics: first-of-month
day number plus the offset, so an overflowing day-of-month rolls over). -/
def Date.epochMs (d : Date) : ℕ :=
  monthStartDay d.am * msPerDay + d.rem

/-! ## JS string and truthiness helpers -/

/-- Truthiness of a possibly-absent string field: absent and `""` are
falsy. -/
def jsTruthy : Option String → Bool
  | none => false
  | some s => s != ""

/-- JS `a || d` for a possibly-absent string `a`. -/
def jsOrStr (o : Option String) (d : String) : String :=
  match o with
  | some s => if s = "" then d else s
  | none => d

/-- JS `a || d` for a possibly-absent number `a` (`0` is falsy). -/
def jsOrNum (o : Option ℚ) (d : ℚ) : ℚ :=
  match o with
  | some a => if a = 0 then d else a
  | none => d

/-- JS `s.includes(sub)`. -/
def jsIncludes (s sub : String) : Bool :=
  decide (List.IsInfix sub.toList s.toList)

def isAsciiLower (c : Char) : Bool := 'a' ≤ c && c ≤ 'z'

def isAsciiUpper (c : Char) : Bool := 'A' ≤ c && c ≤ 'Z'

/-- `.replace(/([a-z])([A-Z])/g, "$1-$2")`: insert a hyphen between a
lowercase letter and the uppercase letter that follows it.  The regex
consumes both matched characters, but the second character of a match is
uppercase and so can never begin another match, so the pairwise scan below
coincides with the global-replace semantics. -/
def camelHyphens : List Char → List Char
  | [] => []
  | [c] => [c]
  | c₁ :: c₂ :: rest =>
    if isAsciiLower c₁ && isAsciiUpper c₂ then
      c₁ :: '-' :: camelHyphens (c₂ :: rest)
    else
      c₁ :: camelHyphens (c₂ :: rest)

/-- JS `\s` (whitespace class). -/
def isJsWs (c : Char) : Bool :=
  c = ' ' || c = '\t' || c = '\n' || c = '\r' || c = '\x0b' || c = '\x0c' ||
  c = '\u00A0' || c = '\u1680' || ('\u2000' ≤ c && c ≤ '\u200A') ||
  c = '\u2028' || c = '\u2029' || c = '\u202F' || c = '\u205F' ||
  c = '\u3000' || c = '\uFEFF'

/-- `.replace(/\s+/g, "-")`: each maximal whitespace run becomes a single
hyphen.  The boolean tracks whether we are inside a run whose hyphen has
already been emitted. -/
def collapseWsAux : Bool → List Char → List Char
  | _, [] => []
  | inRun, c :: rest =>
    if isJsWs c then
      if inRun then collapseWsAux true rest
      else '-' :: collapseWsAux true rest
    else
      c :: collapseWsAux false rest

def collapseWs (l : List Char) : List Char :=
  collapseWsAux false l

/-- `generateExtensionId` from server.js: camel-case boundaries become
hyphens, whitespace runs become hyphens, then lowercase. -/
def generateExtensionId (extensionName : String) : String :=
  ⟨(collapseWs (camelHyphens extensionName.toList)).map Char.toLower⟩

/-! ## The expiry computation -/

/-- `calculateExpiry` from server.js.  `setMonth(getMonth()+1)` /
`setFullYear(getFullYear()+1)` / `+100` keep day-of-month and time of day,
i.e. keep the month offset of the model.  The `default` branch of the
switch also adds one month. -/
def calculateExpiry (subscriptionType : String) (now : Date) : Date :=
  if subscriptionType = "monthly" then { now with am := now.am + 1 }
  else if subscriptionType = "annual" then { now with am := now.am + 12 }
  else if subscriptionType = "lifetime" then { now with am := now.am + 1200 }
  else { now with am := now.am + 1 }

/-! ## Data model -/

/-- One license record as stored in `data/licenses.json`.  Fields that
some code paths leave absent are `Option`. -/
structure License where
  email : String
  subscriptionId : Option String
  subscriptionType : String
  status : String
  createdAt : Date
  expiresAt : Date
  paypalSubscriptionId : Option String
  manual : Bool := false
  extensionName : Option String := none
  extensionId : Option String := none
  cancelledAt : Option Date := none
  revokedAt : Option Date := none
  revocationReason : Option String := none
deriving DecidableEq

/-- The stats record in `data/stats.json`. -/
structure Stats where
  totalSales : ℤ
  monthlyRevenue : ℚ
  activeSubscriptions : ℤ
deriving DecidableEq

/-- The whole persistent state: the license collection (a JS object,
modelled as an insertion-ordered association list with unique keys — the
order matters because the cancellation handler mutates the first match of
an `Object.entries` scan) and the stats record. -/
structure ServerState where
  licenses : List (String × License)
  stats : Stats
deriving DecidableEq

/-- `licenses[k]` read. -/
def lookupKey : List (String × License) → String → Option License
  | [], _ => none
  | p :: rest, k => if p.1 = k then some p.2 else lookupKey rest k

/-- `licenses[k] = v` write: replaces in place when the key exists
(JS objects keep the original key position), appends otherwise. -/
def setKey : List (String × License) → String → License → List (String × License)
  | [], k, v => [(k, v)]
  | p :: rest, k, v => if p.1 = k then (k, v) :: rest else p :: setKey rest k v

/-- `delete licenses[k]`. -/
def eraseKey : List (String × License) → String → List (String × License)
  | [], _ => []
  | p :: rest, k => if p.1 = k then rest else p :: eraseKey rest k

def isActiveLic (lic : License) : Bool := lic.status == "active"

def isActiveEntry (p : String × License) : Bool := isActiveLic p.2

/-- Number of records whose status is `"active"`. -/
def activeCount (licenses : List (String × License)) : ℕ :=
  licenses.countP isActiveEntry

/-- The stored active-subscription counter agrees with the license set. -/
def consistent (s : ServerState) : Prop :=
  s.stats.activeSubscriptions = (activeCount s.licenses : ℤ)

instance (s : ServerState) : Decidable (consistent s) := by
  unfold consistent; infer_instance

/-! ## Operations -/

/-- Fallback price used by the webhook when the event carries no amount
(`subscriptionType === "monthly" ? 9.99 : ... ? 99 : 199`). -/
def configuredPrice (subscriptionType : String) : ℚ :=
  if subscriptionType = "monthly" then 9.99
  else if subscriptionType = "annual" then 99
  else 199

/-- Subscription class derived from the PayPal plan id
(`resource.plan_id || "monthly"` then substring tests). -/
def subscriptionTypeOfPlan (planIdOpt : Option String) : String :=
  let planId := jsOrStr planIdOpt "monthly"
  if jsIncludes planId "annual" || jsIncludes planId "yearly" then "annual"
  else if jsIncludes planId "lifetime" then "lifetime"
  else "monthly"

/-- `POST /webhook/paypal`, `BILLING.SUBSCRIPTION.ACTIVATED` /
`PAYMENT.SALE.COMPLETED` branch.  `licenseKey` stands for the value
`generateLicenseKey()` returned (randomness is an input of the model);
`amount` is `resource.amount?.total`. -/
def webhookActivated (email subscriptionId : String) (planIdOpt : Option String)
    (amount : Option ℚ) (licenseKey : String) (now : Date)
    (s : ServerState) : ServerState :=
  let subscriptionType := subscriptionTypeOfPlan planIdOpt
  let expiresAt := calculateExpiry subscriptionType now
  let lic : License :=
    { email := email
      subscriptionId := some subscriptionId
      subscriptionType := subscriptionType
      status := "active"
      createdAt := now
      expiresAt := expiresAt
      paypalSubscriptionId := some subscriptionId
      extensionName := some "ReplyBolt"
      extensionId := some "reply-bolt" }
  let licenses := setKey s.licenses licenseKey lic
  let price := jsOrNum amount (configuredPrice subscriptionType)
  { licenses := licenses
    stats :=
      { totalSales := s.stats.totalSales + 1
        monthlyRevenue := s.stats.monthlyRevenue + price
        activeSubscriptions := s.stats.activeSubscriptions + 1 } }

/-- Bool test used by the cancellation scan:
`license.paypalSubscriptionId === subscriptionId`. -/
def matchesSub (subscriptionId : String) (p : String × License) : Bool :=
  p.2.paypalSubscriptionId == some subscriptionId

/-- The mutation the cancellation branch applies to the matched record:
`license.status = "cancelled"; license.cancelledAt = new Date()...`. -/
def cancelledRecord (lic : License) (now : Date) : License :=
  { lic with status := "cancelled", cancelledAt := some now }

/-- The `Object.entries` scan of the cancellation branch: mutate the first
record whose stored PayPal subscription id matches, then `break`. -/
def cancelFirst (subscriptionId : String) (now : Date) :
    List (String × License) → List (String × License)
  | [] => []
  | p :: rest =>
    if matchesSub subscriptionId p then
      (p.1, cancelledRecord p.2 now) :: rest
    else
      p :: cancelFirst subscriptionId now rest

/-- `POST /webhook/paypal`, `BILLING.SUBSCRIPTION.CANCELLED` branch.
Note: the stats decrement is unconditional — it happens whether or not any
record matched, and whatever the prior status of the match. -/
def webhookCancelled (subscriptionId : String) (now : Date)
    (s : ServerState) : ServerState :=
  { licenses := cancelFirst subscriptionId now s.licenses
    stats := { s.stats with
      activeSubscriptions := max 0 (s.stats.activeSubscriptions - 1) } }

/-- Outcome of `POST /api/admin/create-license` (auth is transport and
outside the model). -/
inductive CreateResult where
  | failure (msg : String)
  | created (licenseKey : String) (expiresAt : Date)
deriving DecidableEq

/-- `POST /api/admin/create-license`.  The destructuring defaults
`subscriptionType = "monthly"`, `extensionName = "ReplyBolt"` apply to
absent fields; `if (!email)` rejects absent or empty email.  `licenseKey`
stands for the `generateLicenseKey()` value; the `"MANUAL-" + Date.now()`
subscription id is reproduced from the current date. -/
def createLicense (emailOpt subscriptionTypeOpt extensionNameOpt : Option String)
    (licenseKey : String) (now : Date) (s : ServerState) :
    CreateResult × ServerState :=
  let subscriptionType := subscriptionTypeOpt.getD "monthly"
  let extensionName := extensionNameOpt.getD "ReplyBolt"
  if jsTruthy emailOpt then
    let email := emailOpt.getD ""
    let expiresAt := calculateExpiry subscriptionType now
    let lic : License :=
      { email := email
        subscriptionId := some ("MANUAL-" ++ toString now.epochMs)
        subscriptionType := subscriptionType
        status := "active"
        createdAt := now
        expiresAt := expiresAt
        paypalSubscriptionId := none
        manual := true
        extensionName := some extensionName
        extensionId := some (generateExtensionId extensionName) }
    (CreateResult.created licenseKey expiresAt,
      { licenses := setKey s.licenses licenseKey lic
        stats := { s.stats with
          totalSales := s.stats.totalSales + 1
          activeSubscriptions := s.stats.activeSubscriptions + 1 } })
  else
    (CreateResult.failure "Email required", s)

/-- Response shape of `POST /api/verify`: the handler either returns an
error object `{valid:false, error}` or the final
`{valid, email, expiresAt, subscriptionType, extensionName}` object. -/
structure VerifyResponse where
  valid : Bool
  error : Option String := none
  email : Option String := none
  expiresAt : Option Date := none
  subscriptionType : Option String := none
  extensionName : Option String := none
deriving DecidableEq

/-- Final response of the verify handler once the extension-id binding
matched: `isValid = status === "active" && now < expiryDate`. -/
def verifyFinish (lic : License) (now : Date) : VerifyResponse :=
  let isValid := isActiveLic lic && decide (now.epochMs < lic.expiresAt.epochMs)
  { valid := isValid
    email := if isValid then some lic.email else none
    expiresAt := if isValid then some lic.expiresAt else none
    subscriptionType := if isValid then some lic.subscriptionType else none
    extensionName := if isValid then lic.extensionName else none }

/-- `POST /api/verify`.  Returns the response together with the (never
written back) state.  Request fields may be absent. -/
def verifyLicense (licenseKeyOpt extensionIdOpt : Option String) (now : Date)
    (s : ServerState) : VerifyResponse × ServerState :=
  if jsTruthy licenseKeyOpt = false then
    ({ valid := false, error := some "No license key provided" }, s)
  else if jsTruthy extensionIdOpt = false then
    ({ valid := false, error := some "Extension ID is required" }, s)
  else
    let extensionId := extensionIdOpt.getD ""
    match lookupKey s.licenses (licenseKeyOpt.getD "") with
    | none => ({ valid := false, error := some "Invalid license key" }, s)
    | some lic =>
      if jsTruthy lic.extensionId then
        if lic.extensionId.getD "" ≠ extensionId then
          ({ valid := false,
             error := some "This license is for a different extension" }, s)
        else (verifyFinish lic now, s)
      else
        if generateExtensionId (jsOrStr lic.extensionName "ReplyBolt") ≠ extensionId then
          ({ valid := false,
             error := some "This license is for a different extension" }, s)
        else (verifyFinish lic now, s)

/-- The extension id a stored license is effectively bound to: the stored
`extensionId` when truthy, otherwise the id regenerated from the stored
`extensionName` (falling back to `"ReplyBolt"`). -/
def effectiveExtensionId (lic : License) : String :=
  if jsTruthy lic.extensionId then lic.extensionId.getD ""
  else generateExtensionId (jsOrStr lic.extensionName "ReplyBolt")

/-- Outcome of the admin revoke/delete handlers. -/
inductive AdminResult where
  | badRequest (msg : String)
  | notFound (msg : String)
  | success
deriving DecidableEq

/-- The mutation the revoke handler applies: `status = "revoked"`,
`revokedAt = new Date()...`, and `revocationReason = reason` only when a
truthy reason was supplied (`if (reason)`), otherwise any previous reason
is kept. -/
def revokedRecord (lic : License) (reasonOpt : Option String) (now : Date) :
    License :=
  { lic with
    status := "revoked"
    revokedAt := some now
    revocationReason :=
      if jsTruthy reasonOpt then reasonOpt else lic.revocationReason }

/-- `POST /api/admin/revoke-license`.  Captures `wasActive` before the
mutation; re-stamps `revokedAt` always and `revocationReason` only when a
truthy reason is supplied; decrements the active counter (floored at 0)
only when the license was active. -/
def revokeLicense (licenseKeyOpt reasonOpt : Option String) (now : Date)
    (s : ServerState) : AdminResult × ServerState :=
  if jsTruthy licenseKeyOpt = false then
    (AdminResult.badRequest "License key required", s)
  else
    let licenseKey := licenseKeyOpt.getD ""
    match lookupKey s.licenses licenseKey with
    | none => (AdminResult.notFound "License not found", s)
    | some lic =>
      let wasActive := isActiveLic lic
      (AdminResult.success,
        { licenses := setKey s.licenses licenseKey (revokedRecord lic reasonOpt now)
          stats :=
            if wasActive then
              { s.stats with
                activeSubscriptions := max 0 (s.stats.activeSubscriptions - 1) }
            else s.stats })

/-- `POST /api/admin/delete-license`.  Captures `wasActive` before
removal; always decrements `totalSales` (floored at 0) and decrements the
active counter only when the license was active. -/
def deleteLicense (licenseKeyOpt : Option String) (s : ServerState) :
    AdminResult × ServerState :=
  if jsTruthy licenseKeyOpt = false then
    (AdminResult.badRequest "License key required", s)
  else
    let licenseKey := licenseKeyOpt.getD ""
    match lookupKey s.licenses licenseKey with
    | none => (AdminResult.notFound "License not found", s)
    | some lic =>
      let wasActive := isActiveLic lic
      (AdminResult.success,
        { licenses := eraseKey s.licenses licenseKey
          stats :=
            let stats0 := { s.stats with
              totalSales := max 0 (s.stats.totalSales - 1) }
            if wasActive then
              { stats0 with
                activeSubscriptions := max 0 (stats0.activeSubscriptions - 1) }
            else stats0 })

/-! ## Helper lemmas: calendar -/

theorem daysInAbsMonth_pos (am : ℕ) : 0 < daysInAbsMonth am := by
  unfold daysInAbsMonth
  split
  · split <;> norm_num
  · split <;> norm_num

theorem monthStartDay_lt_succ (am : ℕ) :
    monthStartDay am < monthStartDay (am + 1) := by
  have h := daysInAbsMonth_pos am
  simp only [monthStartDay]
  omega

theorem monthStartDay_strictMono : StrictMono monthStartDay :=
  strictMono_nat_of_lt_succ monthStartDay_lt_succ

theorem epochMs_lt_of_addMonths {d : Date} {k : ℕ} (hk : 0 < k) :
    d.epochMs < (Date.mk (d.am + k) d.rem).epochMs := by
  have h := monthStartDay_strictMono (show d.am < d.am + k by omega)
  simp only [Date.epochMs, msPerDay] at h ⊢
  omega

/-- Whatever the subscription class (known or unknown), the computed
expiry is strictly after `now`. -/
theorem now_lt_calculateExpiry (st : String) (now : Date) :
    now.epochMs < (calculateExpiry st now).epochMs := by
  unfold calculateExpiry
  split
  · exact epochMs_lt_of_addMonths (by norm_num)
  split
  · exact epochMs_lt_of_addMonths (by norm_num)
  split
  · exact epochMs_lt_of_addMonths (by norm_num)
  · exact epochMs_lt_of_addMonths (by norm_num)

/-! ## Helper lemmas: the extension-id slug -/

theorem camelHyphens_ne_nil {l : List Char} (h : l ≠ []) :
    camelHyphens l ≠ [] := by
  cases l with
  | nil => exact absurd rfl h
  | cons c rest =>
    cases rest with
    | nil => simp [camelHyphens]
    | cons c₂ r =>
      simp only [camelHyphens]
      split <;> simp

theorem collapseWs_ne_nil {l : List Char} (h : l ≠ []) :
    collapseWs l ≠ [] := by
  cases l with
  | nil => exact absurd rfl h
  | cons c rest =>
    simp only [collapseWs, collapseWsAux]
    split <;> simp

theorem toList_ne_nil_of_ne_empty {s : String} (h : s ≠ "") :
    s.toList ≠ [] := by
  intro he
  apply h
  cases s with
  | mk data =>
    simp only [String.toList] at he
    subst he
    rfl

theorem ne_empty_of_toList_ne_nil {s : String} (h : s.toList ≠ []) :
    s ≠ "" := fun he => h (he ▸ rfl)

/-- A non-empty extension name always canonicalizes to a non-empty slug. -/
theorem generateExtensionId_ne_empty {name : String} (h : name ≠ "") :
    generateExtensionId name ≠ "" := by
  apply ne_empty_of_toList_ne_nil
  show (List.map Char.toLower (collapseWs (camelHyphens name.toList))) ≠ []
  simp only [ne_eq, List.map_eq_nil_iff]
  exact collapseWs_ne_nil (camelHyphens_ne_nil (toList_ne_nil_of_ne_empty h))

/-! ## Helper lemmas: the license collection -/

theorem lookupKey_setKey_self (ls : List (String × License)) (k : String)
    (v : License) : lookupKey (setKey ls k v) k = some v := by
  induction ls with
  | nil => simp [setKey, lookupKey]
  | cons p rest ih =>
    simp only [setKey]
    by_cases h : p.1 = k
    · simp [lookupKey, h]
    · simp [lookupKey, h, ih]

theorem activeCount_setKey_fresh (ls : List (String × License)) (k : String)
    (v : License) (h : lookupKey ls k = none) :
    activeCount (setKey ls k v)
      = activeCount ls + (if isActiveLic v then 1 else 0) := by
  induction ls with
  | nil =>
    simp [setKey, activeCount, List.countP_cons, isActiveEntry]
  | cons p rest ih =>
    simp only [lookupKey] at h
    by_cases hp : p.1 = k
    · simp [hp] at h
    · simp only [hp, if_false] at h
      simp only [setKey, hp, if_false]
      simp only [activeCount, List.countP_cons] at ih ⊢
      rw [ih h]
      omega

theorem activeCount_setKey_existing (ls : List (String × License)) (k : String)
    (v old : License) (h : lookupKey ls k = some old) :
    activeCount (setKey ls k v) + (if isActiveLic old then 1 else 0)
      = activeCount ls + (if isActiveLic v then 1 else 0) := by
  induction ls with
  | nil => simp [lookupKey] at h
  | cons p rest ih =>
    simp only [lookupKey] at h
    by_cases hp : p.1 = k
    · simp only [hp, if_true, Option.some_inj] at h
      subst h
      simp only [setKey, hp, if_true, activeCount, List.countP_cons,
        isActiveEntry]
      omega
    · simp only [hp, if_false] at h
      simp only [setKey, hp, if_false, activeCount, List.countP_cons] at ih ⊢
      have := ih h
      omega

theorem activeCount_eraseKey (ls : List (String × License)) (k : String)
    (old : License) (h : lookupKey ls k = some old) :
    activeCount ls
      = activeCount (eraseKey ls k) + (if isActiveLic old then 1 else 0) := by
  induction ls with
  | nil => simp [lookupKey] at h
  | cons p rest ih =>
    simp only [lookupKey] at h
    by_cases hp : p.1 = k
    · simp only [hp, if_true, Option.some_inj] at h
      subst h
      simp [eraseKey, hp, activeCount, List.countP_cons, isActiveEntry]
    · simp only [hp, if_false] at h
      simp only [eraseKey, hp, if_false, activeCount, List.countP_cons] at ih ⊢
      have := ih h
      omega

theorem activeCount_pos (ls : List (String × License)) (k : String)
    (lic : License) (h : lookupKey ls k = some lic)
    (ha : isActiveLic lic = true) : 1 ≤ activeCount ls := by
  induction ls with
  | nil => simp [lookupKey] at h
  | cons p rest ih =>
    simp only [lookupKey] at h
    by_cases hp : p.1 = k
    · simp only [hp, if_true, Option.some_inj] at h
      subst h
      simp [activeCount, List.countP_cons, isActiveEntry, ha]
    · simp only [hp, if_false] at h
      simp only [activeCount, List.countP_cons] at ih ⊢
      have := ih h
      omega

/-! ## Helper lemmas: the cancellation scan -/

theorem find?_decomp {α : Type} (pred : α → Bool) (ls : List α) (q : α)
    (h : ls.find? pred = some q) :
    ∃ pre post, ls = pre ++ q :: post ∧ ∀ p ∈ pre, pred p = false := by
  induction ls with
  | nil => simp [List.find?] at h
  | cons a l ih =>
    cases hpa : pred a with
    | true =>
      rw [List.find?_cons_of_pos _ hpa, Option.some_inj] at h
      subst h
      exact ⟨[], l, rfl, by simp⟩
    | false =>
      rw [List.find?_cons_of_neg _ (by simp [hpa])] at h
      obtain ⟨pre, post, rfl, hpre⟩ := ih h
      refine ⟨a :: pre, post, rfl, ?_⟩
      intro p hp
      rcases List.mem_cons.mp hp with rfl | hp
      · exact hpa
      · exact hpre p hp

theorem cancelFirst_no_match (subId : String) (now : Date)
    (ls : List (String × License))
    (h : ∀ p ∈ ls, matchesSub subId p = false) :
    cancelFirst subId now ls = ls := by
  induction ls with
  | nil => rfl
  | cons p rest ih =>
    have hp := h p (List.mem_cons_self p rest)
    simp only [cancelFirst, hp, Bool.false_eq_true, if_false]
    rw [ih (fun q hq => h q (List.mem_cons_of_mem p hq))]

theorem cancelFirst_append (subId : String) (now : Date)
    (pre post : List (String × License)) (q : String × License)
    (hpre : ∀ p ∈ pre, matchesSub subId p = false)
    (hq : matchesSub subId q = true) :
    cancelFirst subId now (pre ++ q :: post)
      = pre ++ (q.1, cancelledRecord q.2 now) :: post := by
  induction pre with
  | nil => simp [cancelFirst, hq]
  | cons a l ih =>
    have ha := hpre a (List.mem_cons_self a l)
    simp only [List.cons_append, cancelFirst, ha, Bool.false_eq_true, if_false]
    exact congrArg (a :: ·) (ih (fun p hp => hpre p (List.mem_cons_of_mem a hp)))

/-! ## Concrete fixtures for witnesses and counterexamples -/

def d0 : Date := ⟨0, 0⟩

def d1 : Date := ⟨0, 1000⟩

/-- An active, webhook-issued license bound to `reply-bolt`. -/
def licActive : License :=
  { email := "a@x.com"
    subscriptionId := some "I-1"
    subscriptionType := "monthly"
    status := "active"
    createdAt := d0
    expiresAt := ⟨1, 0⟩
    paypalSubscriptionId := some "I-1"
    extensionName := some "ReplyBolt"
    extensionId := some "reply-bolt" }

/-- A consistent one-license state. -/
def s0 : ServerState :=
  { licenses := [("RB-0001-0001-0001-0001", licActive)]
    stats := { totalSales := 1, monthlyRevenue := 0, activeSubscriptions := 1 } }

/-- An already-cancelled license. -/
def licCancelled : License :=
  { licActive with status := "cancelled", paypalSubscriptionId := some "I-2" }

/-- A state whose only license is already cancelled. -/
def s8 : ServerState :=
  { licenses := [("RB-0002-0002-0002-0002", licCancelled)]
    stats := { totalSales := 5, monthlyRevenue := 0, activeSubscriptions := 5 } }

def emptyState : ServerState :=
  { licenses := [], stats := { totalSales := 0, monthlyRevenue := 0, activeSubscriptions := 0 } }

/-! ## Claim C9 — verify never mutates stored state -/

/-- C9: verification is a pure read: the whole server state — license
collection and stats — is returned unchanged by every `POST /api/verify`
call, so in particular a license whose expiry has passed keeps its stored
record (status `"active"` included): expiry is evaluated lazily against
the clock and never written back. -/
theorem verify_never_mutates :
    ∀ (licenseKeyOpt extensionIdOpt : Option String) (now : Date)
      (s : ServerState),
      (verifyLicense licenseKeyOpt extensionIdOpt now s).2 = s ∧
      (∀ k lic, lookupKey s.licenses k = some lic →
        lookupKey ((verifyLicense licenseKeyOpt extensionIdOpt now s).2).licenses k
          = some lic) := by
  intro lk eid now s
  have h2 : (verifyLicense lk eid now s).2 = s := by
    simp only [verifyLicense]
    repeat' split <;> try rfl
  exact ⟨h2, fun k lic h => by rw [h2]; exact h⟩

/-- Witness for C9 at a concrete expired-at-verification-time input: the
license expires at month 1 and we verify at month 2; the record is intact
afterwards with stored status still `"active"`. -/
theorem verify_never_mutates_witness :
    lookupKey s0.licenses "RB-0001-0001-0001-0001" = some licActive ∧
    ((verifyLicense (some "RB-0001-0001-0001-0001") (some "reply-bolt")
        ⟨2, 0⟩ s0).1.valid = false) ∧
    lookupKey ((verifyLicense (some "RB-0001-0001-0001-0001")
        (some "reply-bolt") ⟨2, 0⟩ s0).2).licenses "RB-0001-0001-0001-0001"
      = some licActive ∧ licActive.status = "active" :=
  ⟨by decide, by decide,
    (verify_never_mutates (some "RB-0001-0001-0001-0001") (some "reply-bolt")
        ⟨2, 0⟩ s0).2 "RB-0001-0001-0001-0001" licActive (by decide),
    by decide⟩

/-! ## Claim C10 — missing key / extension id short-circuits verify -/

/-- C10: when the request's license key or extension id is absent (or the
JS-falsy empty string), verify answers a structured `valid = false` with
an error reason, does not change the state, and does not consult the
store at all — the response is the same whatever the stored licenses, so
even an otherwise-valid key never validates without an extension id. -/
theorem verify_missing_fields_guard :
    ∀ (licenseKeyOpt extensionIdOpt : Option String) (now : Date)
      (s : ServerState),
      jsTruthy licenseKeyOpt = false ∨ jsTruthy extensionIdOpt = false →
      (verifyLicense licenseKeyOpt extensionIdOpt now s).1.valid = false ∧
      ((verifyLicense licenseKeyOpt extensionIdOpt now s).1.error).isSome
        = true ∧
      (verifyLicense licenseKeyOpt extensionIdOpt now s).2 = s ∧
      (∀ s' : ServerState,
        (verifyLicense licenseKeyOpt extensionIdOpt now s').1
          = (verifyLicense licenseKeyOpt extensionIdOpt now s).1) := by
  intro lk eid now s h
  by_cases hl : jsTruthy lk = false
  · simp [verifyLicense, hl]
  · have he : jsTruthy eid = false := h.resolve_left hl
    simp [verifyLicense, hl, he]

/-- Witness for C10: the stored key of `s0` would verify with the right
extension id, but with the extension id absent the result is a structured
failure, independent of the store. -/
theorem verify_missing_fields_guard_witness :
    (jsTruthy (some "RB-0001-0001-0001-0001") = false ∨
      jsTruthy (none : Option String) = false) ∧
    (verifyLicense (some "RB-0001-0001-0001-0001") none d0 s0).1.valid
      = false ∧
    ((verifyLicense (some "RB-0001-0001-0001-0001") none d0 s0).1.error).isSome
      = true ∧
    (verifyLicense (some "RB-0001-0001-0001-0001") none d0 s0).2 = s0 ∧
    (verifyLicense (some "RB-0001-0001-0001-0001") none d0 emptyState).1
      = (verifyLicense (some "RB-0001-0001-0001-0001") none d0 s0).1 := by
  have h := verify_missing_fields_guard (some "RB-0001-0001-0001-0001") none
    d0 s0 (Or.inr rfl)
  exact ⟨Or.inr rfl, h.1, h.2.1, h.2.2.1, h.2.2.2 emptyState⟩

/-! ## Claim C6 — product binding is checked first -/

/-- C6: for every stored license and every supplied (non-empty) extension
id different from the license's effectively bound extension id, verify
answers `valid = false` with the product-mismatch reason and leaves the
state unchanged — whatever the license's status and expiry, i.e. the
mismatch check precedes the status and expiry checks. -/
theorem verify_product_mismatch :
    ∀ (k eid : String) (now : Date) (s : ServerState) (lic : License),
      k ≠ "" → eid ≠ "" →
      lookupKey s.licenses k = some lic →
      eid ≠ effectiveExtensionId lic →
      (verifyLicense (some k) (some eid) now s) =
        ({ valid := false,
           error := some "This license is for a different extension" }, s) := by
  intro k eid now s lic hk he hlook hne
  have hkt : jsTruthy (some k) = true := by simp [jsTruthy, hk]
  have het : jsTruthy (some eid) = true := by simp [jsTruthy, he]
  simp only [verifyLicense, hkt, Bool.true_eq_false, if_false,
    Option.getD_some, hlook]
  by_cases hx : jsTruthy lic.extensionId = true
  · have hne' : lic.extensionId.getD "" ≠ eid := by
      unfold effectiveExtensionId at hne
      rw [if_pos hx] at hne
      exact fun hh => hne (hh ▸ rfl)
    simp [hx, hne', het]
  · have hx' : jsTruthy lic.extensionId = false := by
      revert hx; cases jsTruthy lic.extensionId <;> simp
    have hne' : generateExtensionId (jsOrStr lic.extensionName "ReplyBolt") ≠ eid := by
      unfold effectiveExtensionId at hne
      rw [if_neg (by simp [hx'])] at hne
      exact fun hh => hne (hh ▸ rfl)
    simp [hx', hne', het]

/-- Witness for C6: the stored active license is bound to `reply-bolt`;
verifying it for `other-extension` fails with the mismatch reason. -/
theorem verify_product_mismatch_witness :
    ("RB-0001-0001-0001-0001" : String) ≠ "" ∧
    ("other-extension" : String) ≠ "" ∧
    lookupKey s0.licenses "RB-0001-0001-0001-0001" = some licActive ∧
    ("other-extension" : String) ≠ effectiveExtensionId licActive ∧
    (verifyLicense (some "RB-0001-0001-0001-0001") (some "other-extension")
        d0 s0) =
      ({ valid := false,
         error := some "This license is for a different extension" }, s0) :=
  ⟨by decide, by decide, by decide, by decide,
    verify_product_mismatch "RB-0001-0001-0001-0001" "other-extension" d0 s0
      licActive (by decide) (by decide) (by decide) (by decide)⟩

/-! ## Claim C7 — issue then verify round-trips -/

/-- C7: for every valid subscription class and every (non-empty) email,
extension name and generated key, a manual issuance immediately followed
by verification of the returned key with the matching extension id
answers `valid = true` with the same email and the same subscription
class supplied at issuance. -/
theorem issue_then_verify_ok :
    ∀ (email st extName key : String) (now : Date) (s : ServerState),
      email ≠ "" → extName ≠ "" → key ≠ "" →
      st = "monthly" ∨ st = "annual" ∨ st = "lifetime" →
      (createLicense (some email) (some st) (some extName) key now s).1
        = CreateResult.created key (calculateExpiry st now) ∧
      (verifyLicense (some key) (some (generateExtensionId extName)) now
          (createLicense (some email) (some st) (some extName) key now s).2).1
        = { valid := true
            email := some email
            expiresAt := some (calculateExpiry st now)
            subscriptionType := some st
            extensionName := some extName } := by
  intro email st extName key now s he hn hk _hst
  have hemt : jsTruthy (some email) = true := by simp [jsTruthy, he]
  have hslug : generateExtensionId extName ≠ "" := generateExtensionId_ne_empty hn
  have hlt : decide (now.epochMs < (calculateExpiry st now).epochMs) = true :=
    decide_eq_true (now_lt_calculateExpiry st now)
  constructor
  · simp [createLicense, hemt]
  · simp only [createLicense, hemt, if_true, Option.getD_some]
    simp [verifyLicense, verifyFinish, jsTruthy, hk, hslug,
      lookupKey_setKey_self, hlt, isActiveLic]

/-- Witness for C7 at a concrete input. -/
theorem issue_then_verify_ok_witness :
    ("b@y.com" : String) ≠ "" ∧ ("QuickReply Pro" : String) ≠ "" ∧
    ("RB-AAAA-BBBB-CCCC-DDDD" : String) ≠ "" ∧
    ("annual" = "monthly" ∨ "annual" = "annual" ∨ "annual" = "lifetime") ∧
    (verifyLicense (some "RB-AAAA-BBBB-CCCC-DDDD")
        (some (generateExtensionId "QuickReply Pro")) d0
        (createLicense (some "b@y.com") (some "annual")
          (some "QuickReply Pro") "RB-AAAA-BBBB-CCCC-DDDD" d0 s0).2).1
      = { valid := true
          email := some "b@y.com"
          expiresAt := some (calculateExpiry "annual" d0)
          subscriptionType := some "annual"
          extensionName := some "QuickReply Pro" } :=
  ⟨by decide, by decide, by decide, Or.inr (Or.inl rfl),
    (issue_then_verify_ok "b@y.com" "annual" "QuickReply Pro"
      "RB-AAAA-BBBB-CCCC-DDDD" d0 s0 (by decide) (by decide) (by decide)
      (Or.inr (Or.inl rfl))).2⟩

/-! ## Claim C2 — unknown subscription classes -/

/-- Counterexample to C2 as stated: issuing with the unknown class
`"weekly"` does NOT fail and does change state — the issuance succeeds
and the expiry silently defaults to the monthly expiry. -/
theorem unknown_class_not_rejected :
    (createLicense (some "a@x.com") (some "weekly") (some "ReplyBolt")
        "RB-WWWW-0000-0000-0000" d0 emptyState).1
      = CreateResult.created "RB-WWWW-0000-0000-0000"
          (calculateExpiry "monthly" d0) ∧
    (createLicense (some "a@x.com") (some "weekly") (some "ReplyBolt")
        "RB-WWWW-0000-0000-0000" d0 emptyState).2 ≠ emptyState := by
  constructor
  · decide
  · decide

/-- C2 amended: an issuance request whose subscription class is outside
the closed set does not fail with an error; `calculateExpiry` silently
falls through to the monthly case (now + 1 month), the operation succeeds
and inserts an active record carrying the unknown class verbatim. -/
theorem unknown_class_silently_defaults :
    ∀ (st : String), st ≠ "monthly" → st ≠ "annual" → st ≠ "lifetime" →
      (∀ now, calculateExpiry st now = calculateExpiry "monthly" now) ∧
      (∀ (emailOpt extensionNameOpt : Option String) (key : String)
          (now : Date) (s : ServerState), jsTruthy emailOpt = true →
        (createLicense emailOpt (some st) extensionNameOpt key now s).1
          = CreateResult.created key (calculateExpiry "monthly" now) ∧
        ∃ lic,
          lookupKey (createLicense emailOpt (some st) extensionNameOpt key
              now s).2.licenses key = some lic ∧
          lic.subscriptionType = st ∧ lic.status = "active" ∧
          lic.expiresAt = calculateExpiry "monthly" now) := by
  intro st h1 h2 h3
  have hexp : ∀ now, calculateExpiry st now = calculateExpiry "monthly" now := by
    intro now
    unfold calculateExpiry
    simp [h1, h2, h3]
  refine ⟨hexp, ?_⟩
  intro emailOpt extensionNameOpt key now s hemt
  constructor
  · simp [createLicense, hemt, hexp now]
  · simp only [createLicense, hemt, if_true, Option.getD_some]
    rw [lookupKey_setKey_self]
    exact ⟨_, rfl, rfl, rfl, hexp now⟩

/-- Witness for C2-amended at the concrete class `"weekly"`. -/
theorem unknown_class_silently_defaults_witness :
    ("weekly" : String) ≠ "monthly" ∧ ("weekly" : String) ≠ "annual" ∧
    ("weekly" : String) ≠ "lifetime" ∧
    jsTruthy (some "a@x.com") = true ∧
    calculateExpiry "weekly" d0 = calculateExpiry "monthly" d0 ∧
    (createLicense (some "a@x.com") (some "weekly") (some "ReplyBolt")
        "RB-WWWW-1111-1111-1111" d0 s0).1
      = CreateResult.created "RB-WWWW-1111-1111-1111"
          (calculateExpiry "monthly" d0) := by
  have h := unknown_class_silently_defaults "weekly" (by decide) (by decide)
    (by decide)
  exact ⟨by decide, by decide, by decide, by decide, h.1 d0,
    (h.2 (some "a@x.com") (some "ReplyBolt") "RB-WWWW-1111-1111-1111" d0 s0
      (by decide)).1⟩

/-! ## Claim C1 — the active-count invariant -/

theorem isActiveLic_revokedRecord (lic : License) (reasonOpt : Option String)
    (now : Date) : isActiveLic (revokedRecord lic reasonOpt now) = false := by
  simp [isActiveLic, revokedRecord]

theorem isActiveLic_cancelledRecord (lic : License) (now : Date) :
    isActiveLic (cancelledRecord lic now) = false := by
  simp [isActiveLic, cancelledRecord]

theorem activeCount_setKey_int (ls : List (String × License)) (k : String)
    (v old : License) (h : lookupKey ls k = some old) :
    (activeCount (setKey ls k v) : ℤ)
      = (activeCount ls : ℤ) + (if isActiveLic v then 1 else 0)
        - (if isActiveLic old then 1 else 0) := by
  have hc := activeCount_setKey_existing ls k v old h
  split <;> split <;> (simp_all; try omega)

theorem activeCount_eraseKey_int (ls : List (String × License)) (k : String)
    (old : License) (h : lookupKey ls k = some old) :
    (activeCount (eraseKey ls k) : ℤ)
      = (activeCount ls : ℤ) - (if isActiveLic old then 1 else 0) := by
  have hc := activeCount_eraseKey ls k old h
  split <;> (simp_all; try omega)

/-- Counterexample to C1 as stated: from a consistent state, a
cancellation event whose subscription id matches NO stored license still
decrements the stored counter, breaking the equality with the actual
number of active records. -/
theorem cancel_breaks_active_invariant :
    consistent s0 ∧ ¬ consistent (webhookCancelled "NO-SUCH-SUB" d0 s0) := by
  constructor
  · decide
  · decide

/-- C1 amended: the equality `activeSubscriptions = #active records` is
preserved by webhook issuance and manual issuance provided the generated
key is not already stored (a colliding key overwrites a record and can
break it — see C5), and unconditionally by revoke and delete; webhook
cancellation preserves it only when the first record matching the event's
subscription id exists and is active — when no record matches (or the
first match is not active) the unconditional stats decrement breaks the
equality, as the counterexample shows. -/
theorem lifecycle_active_invariant_amended :
    (∀ (email subId : String) (planIdOpt : Option String) (amount : Option ℚ)
        (key : String) (now : Date) (s : ServerState),
        lookupKey s.licenses key = none → consistent s →
        consistent (webhookActivated email subId planIdOpt amount key now s)) ∧
    (∀ (emailOpt stOpt enOpt : Option String) (key : String) (now : Date)
        (s : ServerState),
        lookupKey s.licenses key = none → consistent s →
        consistent (createLicense emailOpt stOpt enOpt key now s).2) ∧
    (∀ (lkOpt rOpt : Option String) (now : Date) (s : ServerState),
        consistent s → consistent (revokeLicense lkOpt rOpt now s).2) ∧
    (∀ (lkOpt : Option String) (s : ServerState),
        consistent s → consistent (deleteLicense lkOpt s).2) ∧
    (∀ (subId : String) (now : Date) (s : ServerState) (q : String × License),
        s.licenses.find? (matchesSub subId) = some q →
        isActiveLic q.2 = true → consistent s →
        consistent (webhookCancelled subId now s)) := by
  refine ⟨?_, ?_, ?_, ?_, ?_⟩
  · -- webhook issuance with a fresh key
    intro email subId planIdOpt amount key now s hfresh hcons
    unfold consistent at *
    simp only [webhookActivated]
    rw [activeCount_setKey_fresh _ _ _ hfresh]
    simp only [isActiveLic, beq_self_eq_true, if_true]
    push_cast
    omega
  · -- manual issuance with a fresh key
    intro emailOpt stOpt enOpt key now s hfresh hcons
    by_cases hemt : jsTruthy emailOpt = true
    · unfold consistent at *
      simp only [createLicense, hemt, if_true]
      rw [activeCount_setKey_fresh _ _ _ hfresh]
      simp only [isActiveLic, beq_self_eq_true, if_true]
      push_cast
      omega
    · have hf : jsTruthy emailOpt = false := by
        revert hemt; cases jsTruthy emailOpt <;> simp
      simpa [createLicense, hf] using hcons
  · -- revoke
    intro lkOpt rOpt now s hcons
    by_cases hlk : jsTruthy lkOpt = false
    · simpa [revokeLicense, hlk] using hcons
    · rcases hlook : lookupKey s.licenses (lkOpt.getD "") with _ | lic
      · simpa [revokeLicense, hlk, hlook] using hcons
      · have hset := activeCount_setKey_int s.licenses (lkOpt.getD "")
          (revokedRecord lic rOpt now) lic hlook
        rw [isActiveLic_revokedRecord, if_neg (by simp)] at hset
        cases hact : isActiveLic lic
        · have hstate : (revokeLicense lkOpt rOpt now s).2
              = { licenses := setKey s.licenses (lkOpt.getD "")
                    (revokedRecord lic rOpt now)
                  stats := s.stats } := by
            simp [revokeLicense, hlk, hlook, hact]
          unfold consistent at *
          rw [hstate]
          dsimp only
          rw [hact, if_neg (by simp)] at hset
          omega
        · have hpos := activeCount_pos s.licenses (lkOpt.getD "") lic hlook hact
          have hstate : (revokeLicense lkOpt rOpt now s).2
              = { licenses := setKey s.licenses (lkOpt.getD "")
                    (revokedRecord lic rOpt now)
                  stats := { s.stats with
                    activeSubscriptions := max 0 (s.stats.activeSubscriptions - 1) } } := by
            simp [revokeLicense, hlk, hlook, hact]
          unfold consistent at *
          rw [hstate]
          dsimp only
          rw [hact, if_pos rfl] at hset
          have h1 : (1 : ℤ) ≤ (activeCount s.licenses : ℤ) := by
            exact_mod_cast hpos
          omega
  · -- delete
    intro lkOpt s hcons
    by_cases hlk : jsTruthy lkOpt = false
    · simpa [deleteLicense, hlk] using hcons
    · rcases hlook : lookupKey s.licenses (lkOpt.getD "") with _ | lic
      · simpa [deleteLicense, hlk, hlook] using hcons
      · have herase := activeCount_eraseKey_int s.licenses (lkOpt.getD "")
          lic hlook
        cases hact : isActiveLic lic
        · have hstate : (deleteLicense lkOpt s).2
              = { licenses := eraseKey s.licenses (lkOpt.getD "")
                  stats := { s.stats with
                    totalSales := max 0 (s.stats.totalSales - 1) } } := by
            simp [deleteLicense, hlk, hlook, hact]
          unfold consistent at *
          rw [hstate]
          dsimp only
          rw [hact, if_neg (by simp)] at herase
          omega
        · have hpos := activeCount_pos s.licenses (lkOpt.getD "") lic hlook hact
          have hstate : (deleteLicense lkOpt s).2
              = { licenses := eraseKey s.licenses (lkOpt.getD "")
                  stats := { totalSales := max 0 (s.stats.totalSales - 1)
                             monthlyRevenue := s.stats.monthlyRevenue
                             activeSubscriptions := max 0 (s.stats.activeSubscriptions - 1) } } := by
            simp [deleteLicense, hlk, hlook, hact]
          unfold consistent at *
          rw [hstate]
          dsimp only
          rw [hact, if_pos rfl] at herase
          have h1 : (1 : ℤ) ≤ (activeCount s.licenses : ℤ) := by
            exact_mod_cast hpos
          omega
  · -- cancellation whose first match exists and is active
    intro subId now s q hfind hqact hcons
    obtain ⟨pre, post, hls, hpre⟩ := find?_decomp _ _ _ hfind
    have hq : matchesSub subId q = true := List.find?_some hfind
    have hcf : cancelFirst subId now s.licenses
        = pre ++ (q.1, cancelledRecord q.2 now) :: post := by
      rw [hls]; exact cancelFirst_append subId now pre post q hpre hq
    unfold consistent at *
    show (webhookCancelled subId now s).stats.activeSubscriptions = _
    simp only [webhookCancelled, hcf]
    rw [hls] at hcons
    simp only [activeCount, List.countP_append, List.countP_cons,
      isActiveEntry, isActiveLic_cancelledRecord, hqact] at hcons ⊢
    simp only [Bool.false_eq_true, if_false, if_true] at hcons ⊢
    push_cast at hcons ⊢
    omega

/-- Witness for C1-amended: each preserved operation applied to the
concrete consistent state `s0`. -/
theorem lifecycle_active_invariant_amended_witness :
    consistent s0 ∧
    lookupKey s0.licenses "RB-FFFF-0000-0000-0000" = none ∧
    consistent (webhookActivated "b@y.com" "I-9" none none
      "RB-FFFF-0000-0000-0000" d0 s0) ∧
    consistent (createLicense (some "b@y.com") (some "monthly")
      (some "ReplyBolt") "RB-FFFF-0000-0000-0000" d0 s0).2 ∧
    consistent (revokeLicense (some "RB-0001-0001-0001-0001") none d0 s0).2 ∧
    consistent (deleteLicense (some "RB-0001-0001-0001-0001") s0).2 ∧
    s0.licenses.find? (matchesSub "I-1")
      = some ("RB-0001-0001-0001-0001", licActive) ∧
    consistent (webhookCancelled "I-1" d0 s0) :=
  ⟨by decide, by decide,
    lifecycle_active_invariant_amended.1 "b@y.com" "I-9" none none
      "RB-FFFF-0000-0000-0000" d0 s0 (by decide) (by decide),
    lifecycle_active_invariant_amended.2.1 (some "b@y.com") (some "monthly")
      (some "ReplyBolt") "RB-FFFF-0000-0000-0000" d0 s0 (by decide) (by decide),
    lifecycle_active_invariant_amended.2.2.1 (some "RB-0001-0001-0001-0001")
      none d0 s0 (by decide),
    lifecycle_active_invariant_amended.2.2.2.1 (some "RB-0001-0001-0001-0001")
      s0 (by decide),
    by decide,
    lifecycle_active_invariant_amended.2.2.2.2 "I-1" d0 s0
      ("RB-0001-0001-0001-0001", licActive) (by decide) (by decide)
      (by decide)⟩

/-! ## Claim C3 — what a cancellation event actually does -/

theorem cancelFirst_eq_takeDrop (subId : String) (now : Date)
    (ls : List (String × License)) (q : String × License)
    (h : ls.find? (matchesSub subId) = some q) :
    cancelFirst subId now ls
      = ls.takeWhile (fun p => !matchesSub subId p)
        ++ (q.1, cancelledRecord q.2 now)
          :: (ls.dropWhile (fun p => !matchesSub subId p)).tail := by
  induction ls with
  | nil => simp [List.find?] at h
  | cons a l ih =>
    cases ha : matchesSub subId a with
    | true =>
      rw [List.find?_cons_of_pos _ ha, Option.some_inj] at h
      subst h
      simp [cancelFirst, ha, List.takeWhile_cons, List.dropWhile_cons]
    | false =>
      rw [List.find?_cons_of_neg _ (by simp [ha])] at h
      simp only [cancelFirst, ha, Bool.false_eq_true, if_false,
        List.takeWhile_cons, List.dropWhile_cons, Bool.not_false, if_true,
        List.cons_append]
      rw [ih h]

/-- Counterexample to C3 as stated: a cancellation event matching a
NON-active (already cancelled) license is claimed to leave status and
stats untouched; in the code it re-stamps the record's cancellation
timestamp and still decrements the active counter. -/
theorem cancel_nonactive_decrements_stats :
    lookupKey s8.licenses "RB-0002-0002-0002-0002" = some licCancelled ∧
    isActiveLic licCancelled = false ∧
    (webhookCancelled "I-2" d0 s8).stats.activeSubscriptions
      ≠ s8.stats.activeSubscriptions ∧
    (webhookCancelled "I-2" d0 s8).licenses ≠ s8.licenses := by
  refine ⟨by decide, by decide, by decide, by decide⟩

/-- C3 amended: a cancellation event always decrements
`activeSubscriptions` by one (floored at zero) and leaves the other stats
fields alone, whether or not any record matches and whatever the match's
prior status; the license collection is unchanged when no stored
payment-reference matches, and otherwise exactly the first matching
record — active or not — gets status `"cancelled"` and a fresh
cancellation timestamp. -/
theorem cancel_behavior_amended :
    ∀ (subId : String) (now : Date) (s : ServerState),
      ((webhookCancelled subId now s).stats.totalSales
          = s.stats.totalSales ∧
        (webhookCancelled subId now s).stats.monthlyRevenue
          = s.stats.monthlyRevenue ∧
        (webhookCancelled subId now s).stats.activeSubscriptions
          = max 0 (s.stats.activeSubscriptions - 1)) ∧
      (s.licenses.find? (matchesSub subId) = none →
        (webhookCancelled subId now s).licenses = s.licenses) ∧
      (∀ q, s.licenses.find? (matchesSub subId) = some q →
        (webhookCancelled subId now s).licenses
          = s.licenses.takeWhile (fun p => !matchesSub subId p)
            ++ (q.1, cancelledRecord q.2 now)
              :: (s.licenses.dropWhile (fun p => !matchesSub subId p)).tail) := by
  intro subId now s
  refine ⟨⟨rfl, rfl, rfl⟩, ?_, ?_⟩
  · intro hnone
    show cancelFirst subId now s.licenses = s.licenses
    refine cancelFirst_no_match subId now s.licenses (fun p hp => ?_)
    have := List.find?_eq_none.mp hnone p hp
    simpa using this
  · intro q hq
    show cancelFirst subId now s.licenses = _
    exact cancelFirst_eq_takeDrop subId now s.licenses q hq

/-- Witness for C3-amended at the already-cancelled concrete license. -/
theorem cancel_behavior_amended_witness :
    s8.licenses.find? (matchesSub "I-2")
      = some ("RB-0002-0002-0002-0002", licCancelled) ∧
    (webhookCancelled "I-2" d0 s8).stats.activeSubscriptions
      = max 0 (s8.stats.activeSubscriptions - 1) ∧
    (webhookCancelled "I-2" d0 s8).licenses
      = s8.licenses.takeWhile (fun p => !matchesSub "I-2" p)
        ++ ("RB-0002-0002-0002-0002", cancelledRecord licCancelled d0)
          :: (s8.licenses.dropWhile (fun p => !matchesSub "I-2" p)).tail :=
  ⟨by decide, (cancel_behavior_amended "I-2" d0 s8).1.2.2,
    (cancel_behavior_amended "I-2" d0 s8).2.2
      ("RB-0002-0002-0002-0002", licCancelled) (by decide)⟩

/-! ## Claim C4 — what a successful issuance does to the stats -/

/-- Counterexample to C4 as stated: a successful manual issuance leaves
cumulative revenue unchanged instead of adding the configured price. -/
theorem manual_issuance_adds_no_revenue :
    (createLicense (some "a@x.com") (some "monthly") (some "ReplyBolt")
        "RB-MMMM-0000-0000-0000" d0 emptyState).1
      = CreateResult.created "RB-MMMM-0000-0000-0000"
          (calculateExpiry "monthly" d0) ∧
    (createLicense (some "a@x.com") (some "monthly") (some "ReplyBolt")
        "RB-MMMM-0000-0000-0000" d0 emptyState).2.stats.monthlyRevenue
      = emptyState.stats.monthlyRevenue ∧
    emptyState.stats.monthlyRevenue
      ≠ emptyState.stats.monthlyRevenue + configuredPrice "monthly" := by
  refine ⟨by decide, by decide, ?_⟩
  show (0 : ℚ) ≠ 0 + configuredPrice "monthly"
  norm_num [configuredPrice]

/-- C4 amended: a webhook issuance inserts the new active record and, in
the same operation, adds one to `totalSales`, one to
`activeSubscriptions`, and the event's paid amount (falling back to the
configured price of the class) to cumulative revenue; a manual issuance
inserts the active record and bumps both counters the same way but adds
NOTHING to cumulative revenue. -/
theorem issuance_stats_amended :
    (∀ (email subId : String) (planIdOpt : Option String) (amount : Option ℚ)
        (key : String) (now : Date) (s : ServerState),
      (webhookActivated email subId planIdOpt amount key now s).stats.totalSales
        = s.stats.totalSales + 1 ∧
      (webhookActivated email subId planIdOpt amount key now
          s).stats.activeSubscriptions
        = s.stats.activeSubscriptions + 1 ∧
      (webhookActivated email subId planIdOpt amount key now
          s).stats.monthlyRevenue
        = s.stats.monthlyRevenue
          + jsOrNum amount (configuredPrice (subscriptionTypeOfPlan planIdOpt)) ∧
      (lookupKey (webhookActivated email subId planIdOpt amount key now
          s).licenses key).map License.status = some "active") ∧
    (∀ (emailOpt stOpt enOpt : Option String) (key : String) (now : Date)
        (s : ServerState), jsTruthy emailOpt = true →
      (createLicense emailOpt stOpt enOpt key now s).2.stats.totalSales
        = s.stats.totalSales + 1 ∧
      (createLicense emailOpt stOpt enOpt key now
          s).2.stats.activeSubscriptions
        = s.stats.activeSubscriptions + 1 ∧
      (createLicense emailOpt stOpt enOpt key now s).2.stats.monthlyRevenue
        = s.stats.monthlyRevenue ∧
      (lookupKey (createLicense emailOpt stOpt enOpt key now s).2.licenses
          key).map License.status = some "active") := by
  constructor
  · intro email subId planIdOpt amount key now s
    refine ⟨rfl, rfl, rfl, ?_⟩
    simp only [webhookActivated]
    rw [lookupKey_setKey_self]
    rfl
  · intro emailOpt stOpt enOpt key now s hemt
    refine ⟨?_, ?_, ?_, ?_⟩ <;>
      (simp only [createLicense, hemt, if_true]
       try first
         | rfl
         | (rw [lookupKey_setKey_self]; rfl))

/-- Witness for C4-amended: a concrete manual issuance bumps both
counters and leaves revenue alone. -/
theorem issuance_stats_amended_witness :
    jsTruthy (some "a@x.com") = true ∧
    (createLicense (some "a@x.com") (some "monthly") (some "ReplyBolt")
        "RB-MMMM-1111-1111-1111" d0 s0).2.stats.totalSales
      = s0.stats.totalSales + 1 ∧
    (createLicense (some "a@x.com") (some "monthly") (some "ReplyBolt")
        "RB-MMMM-1111-1111-1111" d0 s0).2.stats.activeSubscriptions
      = s0.stats.activeSubscriptions + 1 ∧
    (createLicense (some "a@x.com") (some "monthly") (some "ReplyBolt")
        "RB-MMMM-1111-1111-1111" d0 s0).2.stats.monthlyRevenue
      = s0.stats.monthlyRevenue :=
  ⟨by decide,
    (issuance_stats_amended.2 (some "a@x.com") (some "monthly")
      (some "ReplyBolt") "RB-MMMM-1111-1111-1111" d0 s0 (by decide)).1,
    (issuance_stats_amended.2 (some "a@x.com") (some "monthly")
      (some "ReplyBolt") "RB-MMMM-1111-1111-1111" d0 s0 (by decide)).2.1,
    (issuance_stats_amended.2 (some "a@x.com") (some "monthly")
      (some "ReplyBolt") "RB-MMMM-1111-1111-1111" d0 s0 (by decide)).2.2.1⟩

/-! ## Claim C5 — key collisions are not detected -/

/-- Counterexample to C5 as stated: issuing with a key that is already
stored does NOT fail with a generation error; it succeeds and silently
overwrites the existing record. -/
theorem collision_overwrites :
    lookupKey s0.licenses "RB-0001-0001-0001-0001" = some licActive ∧
    (createLicense (some "b@y.com") (some "annual") (some "ReplyBolt")
        "RB-0001-0001-0001-0001" d0 s0).1
      = CreateResult.created "RB-0001-0001-0001-0001"
          (calculateExpiry "annual" d0) ∧
    (lookupKey (createLicense (some "b@y.com") (some "annual")
        (some "ReplyBolt") "RB-0001-0001-0001-0001" d0 s0).2.licenses
        "RB-0001-0001-0001-0001").map License.email = some "b@y.com" ∧
    licActive.email ≠ "b@y.com" := by
  refine ⟨by decide, by decide, by decide, by decide⟩

/-- C5 amended: neither issuance path checks the store for the freshly
generated key — there is no collision test, no retry and no
generation-exhausted error; the new record is written unconditionally,
overwriting whatever record held that key. -/
theorem issuance_no_collision_check :
    (∀ (emailOpt stOpt enOpt : Option String) (key : String) (now : Date)
        (s : ServerState) (old : License), jsTruthy emailOpt = true →
      lookupKey s.licenses key = some old →
      (createLicense emailOpt stOpt enOpt key now s).1
        = CreateResult.created key
            (calculateExpiry (stOpt.getD "monthly") now) ∧
      (lookupKey (createLicense emailOpt stOpt enOpt key now s).2.licenses
          key).map License.email = some (emailOpt.getD "") ∧
      (lookupKey (createLicense emailOpt stOpt enOpt key now s).2.licenses
          key).map License.createdAt = some now) ∧
    (∀ (email subId : String) (planIdOpt : Option String) (amount : Option ℚ)
        (key : String) (now : Date) (s : ServerState) (old : License),
      lookupKey s.licenses key = some old →
      (lookupKey (webhookActivated email subId planIdOpt amount key now
          s).licenses key).map License.email = some email ∧
      (lookupKey (webhookActivated email subId planIdOpt amount key now
          s).licenses key).map License.createdAt = some now) := by
  constructor
  · intro emailOpt stOpt enOpt key now s old hemt _hold
    refine ⟨?_, ?_, ?_⟩ <;>
      simp only [createLicense, hemt, if_true] <;>
      first
        | rfl
        | (rw [lookupKey_setKey_self]; rfl)
  · intro email subId planIdOpt amount key now s old _hold
    constructor <;>
      (simp only [webhookActivated]; rw [lookupKey_setKey_self]; rfl)

/-- Witness for C5-amended at the colliding concrete key of `s0`. -/
theorem issuance_no_collision_check_witness :
    jsTruthy (some "c@z.com") = true ∧
    lookupKey s0.licenses "RB-0001-0001-0001-0001" = some licActive ∧
    (createLicense (some "c@z.com") (some "monthly") (some "ReplyBolt")
        "RB-0001-0001-0001-0001" d1 s0).1
      = CreateResult.created "RB-0001-0001-0001-0001"
          (calculateExpiry "monthly" d1) ∧
    (lookupKey (createLicense (some "c@z.com") (some "monthly")
        (some "ReplyBolt") "RB-0001-0001-0001-0001" d1 s0).2.licenses
        "RB-0001-0001-0001-0001").map License.email = some "c@z.com" :=
  ⟨by decide, by decide,
    ((issuance_no_collision_check.1 (some "c@z.com") (some "monthly")
      (some "ReplyBolt") "RB-0001-0001-0001-0001" d1 s0 licActive (by decide)
      (by decide)).1),
    ((issuance_no_collision_check.1 (some "c@z.com") (some "monthly")
      (some "ReplyBolt") "RB-0001-0001-0001-0001" d1 s0 licActive (by decide)
      (by decide)).2.1)⟩

/-! ## Claim C8 — double revoke -/

/-- Counterexample to C8 as stated: for an existing but already-cancelled
license, revoking twice ends in status `"revoked"` but the active counter
is never decremented — not "exactly once" as claimed for every existing
key. -/
theorem revoke_twice_without_decrement :
    lookupKey s8.licenses "RB-0002-0002-0002-0002" = some licCancelled ∧
    (revokeLicense (some "RB-0002-0002-0002-0002") none d1
        (revokeLicense (some "RB-0002-0002-0002-0002") none d0
          s8).2).2.stats.activeSubscriptions
      = s8.stats.activeSubscriptions ∧
    s8.stats.activeSubscriptions ≠ s8.stats.activeSubscriptions - 1 := by
  refine ⟨by decide, by decide, by decide⟩

/-- C8 amended: for every existing key, revoking twice succeeds both
times and ends with status `"revoked"`; the second call re-stamps the
revocation timestamp (and the reason, whenever a truthy reason is
supplied); across the two calls the active counter is decremented exactly
once — floored at zero — when the license was active before the first
call, and not at all otherwise. -/
theorem revoke_idempotent_amended :
    ∀ (k : String) (r1Opt r2Opt : Option String) (t1 t2 : Date)
      (s : ServerState) (lic : License),
      k ≠ "" → lookupKey s.licenses k = some lic →
      (revokeLicense (some k) r1Opt t1 s).1 = AdminResult.success ∧
      (revokeLicense (some k) r2Opt t2
          (revokeLicense (some k) r1Opt t1 s).2).1 = AdminResult.success ∧
      (lookupKey (revokeLicense (some k) r2Opt t2
          (revokeLicense (some k) r1Opt t1 s).2).2.licenses k).map
          License.status = some "revoked" ∧
      (lookupKey (revokeLicense (some k) r2Opt t2
          (revokeLicense (some k) r1Opt t1 s).2).2.licenses k).map
          License.revokedAt = some (some t2) ∧
      (jsTruthy r2Opt = true →
        (lookupKey (revokeLicense (some k) r2Opt t2
            (revokeLicense (some k) r1Opt t1 s).2).2.licenses k).map
            License.revocationReason = some r2Opt) ∧
      (revokeLicense (some k) r2Opt t2
          (revokeLicense (some k) r1Opt t1 s).2).2.stats.activeSubscriptions
        = (if isActiveLic lic = true
            then max 0 (s.stats.activeSubscriptions - 1)
            else s.stats.activeSubscriptions) ∧
      (revokeLicense (some k) r2Opt t2
          (revokeLicense (some k) r1Opt t1 s).2).2.stats.totalSales
        = s.stats.totalSales ∧
      (revokeLicense (some k) r2Opt t2
          (revokeLicense (some k) r1Opt t1 s).2).2.stats.monthlyRevenue
        = s.stats.monthlyRevenue := by
  intro k r1Opt r2Opt t1 t2 s lic hk hlook
  have hkt : jsTruthy (some k) = true := by simp [jsTruthy, hk]
  have h1state : (revokeLicense (some k) r1Opt t1 s).2
      = { licenses := setKey s.licenses k (revokedRecord lic r1Opt t1)
          stats :=
            if isActiveLic lic = true then
              { s.stats with
                activeSubscriptions := max 0 (s.stats.activeSubscriptions - 1) }
            else s.stats } := by
    cases hact : isActiveLic lic <;> simp [revokeLicense, hkt, hlook, hact]
  have h1res : (revokeLicense (some k) r1Opt t1 s).1 = AdminResult.success := by
    simp [revokeLicense, hkt, hlook]
  have hlook1 : lookupKey (revokeLicense (some k) r1Opt t1 s).2.licenses k
      = some (revokedRecord lic r1Opt t1) := by
    rw [h1state]
    exact lookupKey_setKey_self s.licenses k (revokedRecord lic r1Opt t1)
  have hact1 : isActiveLic (revokedRecord lic r1Opt t1) = false :=
    isActiveLic_revokedRecord lic r1Opt t1
  have h2stateGen : ∀ s1 : ServerState,
      lookupKey s1.licenses k = some (revokedRecord lic r1Opt t1) →
      (revokeLicense (some k) r2Opt t2 s1).2
        = { licenses := setKey s1.licenses k
              (revokedRecord (revokedRecord lic r1Opt t1) r2Opt t2)
            stats := s1.stats } := by
    intro s1 hl1
    simp [revokeLicense, hkt, hl1, hact1]
  have h2state := h2stateGen (revokeLicense (some k) r1Opt t1 s).2 hlook1
  have h2res : (revokeLicense (some k) r2Opt t2
      (revokeLicense (some k) r1Opt t1 s).2).1 = AdminResult.success := by
    have : ∀ s1 : ServerState,
        lookupKey s1.licenses k = some (revokedRecord lic r1Opt t1) →
        (revokeLicense (some k) r2Opt t2 s1).1 = AdminResult.success := by
      intro s1 hl1
      simp [revokeLicense, hkt, hl1]
    exact this _ hlook1
  have hlook2 : lookupKey (revokeLicense (some k) r2Opt t2
      (revokeLicense (some k) r1Opt t1 s).2).2.licenses k
      = some (revokedRecord (revokedRecord lic r1Opt t1) r2Opt t2) := by
    rw [h2state]
    exact lookupKey_setKey_self _ k _
  have hstats1 : (revokeLicense (some k) r1Opt t1 s).2.stats
      = (if isActiveLic lic = true then
          { s.stats with
            activeSubscriptions := max 0 (s.stats.activeSubscriptions - 1) }
         else s.stats) := by
    rw [h1state]
  refine ⟨h1res, h2res, ?_, ?_, ?_, ?_, ?_, ?_⟩
  · rw [hlook2]; rfl
  · rw [hlook2]; rfl
  · intro hr2
    rw [hlook2]
    simp [revokedRecord, hr2]
  · rw [h2state]
    show (revokeLicense (some k) r1Opt t1 s).2.stats.activeSubscriptions = _
    rw [hstats1]
    cases hact : isActiveLic lic <;> simp [hact]
  · rw [h2state]
    show (revokeLicense (some k) r1Opt t1 s).2.stats.totalSales = _
    rw [hstats1]
    cases hact : isActiveLic lic <;> simp [hact]
  · rw [h2state]
    show (revokeLicense (some k) r1Opt t1 s).2.stats.monthlyRevenue = _
    rw [hstats1]
    cases hact : isActiveLic lic <;> simp [hact]

/-- Witness for C8-amended: double revoke of the concrete active license
of `s0`, decrementing the counter exactly once. -/
theorem revoke_idempotent_amended_witness :
    ("RB-0001-0001-0001-0001" : String) ≠ "" ∧
    lookupKey s0.licenses "RB-0001-0001-0001-0001" = some licActive ∧
    (revokeLicense (some "RB-0001-0001-0001-0001") (some "abuse") d1
        (revokeLicense (some "RB-0001-0001-0001-0001") none d0
          s0).2).2.stats.activeSubscriptions
      = (if isActiveLic licActive = true
          then max 0 (s0.stats.activeSubscriptions - 1)
          else s0.stats.activeSubscriptions) ∧
    (lookupKey (revokeLicense (some "RB-0001-0001-0001-0001") (some "abuse")
        d1 (revokeLicense (some "RB-0001-0001-0001-0001") none d0
          s0).2).2.licenses "RB-0001-0001-0001-0001").map License.status
      = some "revoked" :=
  ⟨by decide, by decide,
    (revoke_idempotent_amended "RB-0001-0001-0001-0001" none (some "abuse")
      d0 d1 s0 licActive (by decide) (by decide)).2.2.2.2.2.1,
    (revoke_idempotent_amended "RB-0001-0001-0001-0001" none (some "abuse")
      d0 d1 s0 licActive (by decide) (by decide)).2.2.1⟩

end ReplyBolt
